import Mathlib

/-!
Shallow embedding of `hooks/notify.py`, a notification hook script that
plays a sound cue for the events "input" and "complete" and optionally
sends a Telegram message on completion.

Effectful Python code is modelled by explicit state passing: a `World`
records everything the script observes (filesystem, decode/playback
faults, environment variables, current directory name, wall clock,
script installation directory, outcome of the HTTP POST), and a `Trace`
records every side effect the script performs (stderr/stdout lines,
the path handed to the player, `sd.play` calls, `sd.wait` calls,
environment reads, outbound HTTP POSTs).  Exceptions raised by the
audio/HTTP libraries are modelled as fault fields of the `World`;
the `try/except` blocks of the source become case analyses on them.
-/

namespace notify

/-- An outbound HTTP POST as issued by `requests.post` in `send_telegram`:
the URL, the JSON payload fields `chat_id` and `text`, and the timeout. -/
structure Post where
  url : String
  chatId : String
  text : String
  timeout : Nat
  deriving DecidableEq, Repr

/-- The side effects performed during one run: lines printed to stderr and
stdout, the sound paths handed to `play_sound_file`, the `sd.play` calls
(sample buffer and sample rate), the number of `sd.wait` calls, the
environment variables read, and the outbound HTTP POSTs issued. -/
structure Trace where
  stderr : List String := []
  stdout : List String := []
  soundAttempts : List String := []
  plays : List (List Int × Nat) := []
  waits : Nat := 0
  envReads : List String := []
  posts : List Post := []
  deriving DecidableEq, Repr

/-- Sequential composition of effect traces: effects of the first run
followed by effects of the second. -/
def Trace.append (a b : Trace) : Trace where
  stderr := a.stderr ++ b.stderr
  stdout := a.stdout ++ b.stdout
  soundAttempts := a.soundAttempts ++ b.soundAttempts
  plays := a.plays ++ b.plays
  waits := a.waits + b.waits
  envReads := a.envReads ++ b.envReads
  posts := a.posts ++ b.posts

/-- Everything the script can observe from its surroundings:
`fileExists` is `Path.exists`, `decodeResult` is `sf.read` (either a fault
message or a sample buffer with its sample rate), `playFault`/`waitFault`
are exceptions raised by `sd.play`/`sd.wait` when present, `env` is
`os.getenv`, `cwdName` is `Path.cwd().name`, `hour`/`minute`/`second` the
wall clock, `scriptDir` is `Path(__file__).resolve().parent`, and
`postSucceeds` tells whether `requests.post` completes without raising. -/
structure World where
  fileExists : String → Bool
  decodeResult : String → Except String (List Int × Nat)
  playFault : Option String
  waitFault : Option String
  env : String → Option String
  cwdName : String
  hour : Nat
  minute : Nat
  second : Nat
  scriptDir : String
  postSucceeds : Bool

/-- Python truthiness of an optional string (`os.getenv` result):
`None` and the empty string are falsy. -/
def truthy : Option String → Bool
  | none => false
  | some s => !s.isEmpty

/-- Zero-padded two-digit rendering, as `%H`, `%M`, `%S` produce. -/
def two_digit (n : Nat) : String :=
  (if n < 10 then "0" else "") ++ toString n

/-- The `%H:%M:%S` timestamp format used in the Telegram message. -/
def format_hms (h m s : Nat) : String :=
  two_digit h ++ ":" ++ two_digit m ++ ":" ++ two_digit s

/-- A single-quote character as a string (char code 39). -/
def squote : String := String.singleton (Char.ofNat 39)

/-- The message text built by `send_telegram`:
`f"✓ Claude Code done in '{Path.cwd().name}' at {datetime.now():%H:%M:%S}"`. -/
def telegram_message (w : World) : String :=
  "✓ Claude Code done in " ++ squote ++ w.cwdName ++ squote ++ " at "
    ++ format_hms w.hour w.minute w.second

/-- The Telegram API endpoint `f"https://api.telegram.org/bot{bot_token}/sendMessage"`. -/
def telegram_api_url (bot_token : String) : String :=
  "https://api.telegram.org/bot" ++ bot_token ++ "/sendMessage"

/-- The `requests.post` call: succeeds or raises according to the world.
The response object is discarded by the source, so `.ok` carries no data. -/
def requests_post (w : World) (_p : Post) : Except Unit Unit :=
  if w.postSucceeds then .ok () else .error ()

/-- `play_sound_file(sound_file)`: warn and return `False` when the file is
missing; otherwise decode with `sf.read`, play with `sd.play`, block on
`sd.wait`, returning `True`; any exception in that `try` block is caught,
reported to stderr as `Error playing sound: ...`, and yields `False`. -/
def play_sound_file (w : World) (sound_file : String) : Bool × Trace :=
  if w.fileExists sound_file = false then
    (false, { soundAttempts := [sound_file],
              stderr := ["Warning: Sound file not found: " ++ sound_file] })
  else
    match w.decodeResult sound_file with
    | .error e =>
        (false, { soundAttempts := [sound_file],
                  stderr := ["Error playing sound: " ++ e] })
    | .ok (data, samplerate) =>
        match w.playFault with
        | some e =>
            (false, { soundAttempts := [sound_file],
                      plays := [(data, samplerate)],
                      stderr := ["Error playing sound: " ++ e] })
        | none =>
            match w.waitFault with
            | some e =>
                (false, { soundAttempts := [sound_file],
                          plays := [(data, samplerate)],
                          waits := 1,
                          stderr := ["Error playing sound: " ++ e] })
            | none =>
                (true, { soundAttempts := [sound_file],
                         plays := [(data, samplerate)],
                         waits := 1 })

/-- `send_telegram(event)`: no-op unless `event == "complete"`; then read
the two environment variables, skip silently unless both are truthy,
otherwise issue one POST whose failure is swallowed by `except: pass`. -/
def send_telegram (w : World) (event : String) : Trace :=
  if event ≠ "complete" then {}
  else
    let bot_token := w.env "TELEGRAM_BOT_TOKEN"
    let chat_id := w.env "TELEGRAM_CHAT_ID"
    if (truthy bot_token && truthy chat_id) = false then
      { envReads := ["TELEGRAM_BOT_TOKEN", "TELEGRAM_CHAT_ID"] }
    else
      let message := telegram_message w
      let p : Post :=
        { url := telegram_api_url (bot_token.getD ""),
          chatId := chat_id.getD "",
          text := message,
          timeout := 5 }
      match requests_post w p with
      | .ok _ =>
          { envReads := ["TELEGRAM_BOT_TOKEN", "TELEGRAM_CHAT_ID"],
            posts := [p] }
      | .error _ =>
          { envReads := ["TELEGRAM_BOT_TOKEN", "TELEGRAM_CHAT_ID"],
            posts := [p] }

/-- The three usage lines `main` prints to stderr on a malformed call. -/
def usage_lines (prog : String) : List String :=
  ["Usage: " ++ prog ++ " {input|complete}",
   "  input    - Play sound when Claude needs user input",
   "  complete - Play sound when Claude completes tasks"]

/-- The `sound_files` dict built in `main`, keyed by event name. -/
def sound_files (sounds_dir : String) : List (String × String) :=
  [("input", sounds_dir ++ "/input-needed.ogg"),
   ("complete", sounds_dir ++ "/complete.ogg")]

/-- `main()`: `sys.argv = prog :: args`.  Malformed invocations (argument
count other than one, or an unrecognized keyword) print the usage text to
stderr and return 1; otherwise resolve the sound path relative to the
script directory, play it, send the Telegram notification, and return 0.
(The dict access `sound_files[event]` cannot miss: the guard already
checked `event` against the two keys, so `getD` is never the default.) -/
def main (w : World) (prog : String) (args : List String) : Nat × Trace :=
  if args.length ≠ 1 ∨ (args.headD "" ≠ "input" ∧ args.headD "" ≠ "complete") then
    (1, { stderr := usage_lines prog })
  else
    let event := args.headD ""
    let sounds_dir := w.scriptDir ++ "/sounds"
    let sound_file := ((sound_files sounds_dir).lookup event).getD ""
    let played := play_sound_file w sound_file
    (0, Trace.append played.2 (send_telegram w event))

/-- `s` contains `sub` as a contiguous substring. -/
def str_contains (s sub : String) : Prop :=
  ∃ a b : List Char, s.data = a ++ sub.data ++ b

/-- `s` ends with the suffix `suf`. -/
def str_ends_with (s suf : String) : Prop :=
  ∃ a : List Char, s.data = a ++ suf.data

/-- String append acts as list append on the underlying character data. -/
theorem string_data_append (a b : String) : (a ++ b).data = a.data ++ b.data := rfl

/-- A sample world used to instantiate hypotheses at concrete inputs. -/
def sampleWorld : World where
  fileExists := fun _ => true
  decodeResult := fun _ => .ok ([1, 2], 44100)
  playFault := none
  waitFault := none
  env := fun v =>
    if v = "TELEGRAM_BOT_TOKEN" then some "tok"
    else if v = "TELEGRAM_CHAT_ID" then some "42"
    else none
  cwdName := "proj"
  hour := 9
  minute := 30
  second := 5
  scriptDir := "/opt/hooks"
  postSucceeds := true

/-- A world where the sound file is missing, the Telegram configuration is
absent and the HTTP POST would fail. -/
def failWorld : World :=
  { sampleWorld with
    fileExists := fun _ => false,
    env := fun _ => none,
    postSucceeds := false }

/-- The POST built by `send_telegram` when both variables are configured. -/
def the_post (w : World) : Post where
  url := telegram_api_url ((w.env "TELEGRAM_BOT_TOKEN").getD "")
  chatId := (w.env "TELEGRAM_CHAT_ID").getD ""
  text := telegram_message w
  timeout := 5

/-- Effects `play_sound_file` never performs, and the one path it always
records, on every branch. -/
theorem play_sound_file_frame (w : World) (p : String) :
    (play_sound_file w p).2.soundAttempts = [p] ∧
    (play_sound_file w p).2.stdout = [] ∧
    (play_sound_file w p).2.posts = [] ∧
    (play_sound_file w p).2.envReads = [] := by
  unfold play_sound_file
  cases hfe : w.fileExists p
  · simp
  · cases hdr : w.decodeResult p with
    | error e => simp
    | ok dr =>
      obtain ⟨d, r⟩ := dr
      cases hpf : w.playFault
      · cases hwf : w.waitFault <;> simp
      · simp

/-- Effects `send_telegram` never performs, on every branch. -/
theorem send_telegram_frame (w : World) (e : String) :
    (send_telegram w e).stdout = [] ∧
    (send_telegram w e).stderr = [] ∧
    (send_telegram w e).soundAttempts = [] ∧
    (send_telegram w e).plays = [] ∧
    (send_telegram w e).waits = 0 := by
  unfold send_telegram
  split
  · simp
  · dsimp only
    cases hcfg : (truthy (w.env "TELEGRAM_BOT_TOKEN") &&
        truthy (w.env "TELEGRAM_CHAT_ID"))
    · simp
    · cases hps : w.postSucceeds <;> simp [requests_post, hps]

/-- Case normal form of `send_telegram` on the "complete" event. -/
theorem send_telegram_complete_eq (w : World) :
    send_telegram w "complete" =
      if (truthy (w.env "TELEGRAM_BOT_TOKEN") &&
            truthy (w.env "TELEGRAM_CHAT_ID")) = false then
        { envReads := ["TELEGRAM_BOT_TOKEN", "TELEGRAM_CHAT_ID"] }
      else
        { envReads := ["TELEGRAM_BOT_TOKEN", "TELEGRAM_CHAT_ID"],
          posts := [the_post w] } := by
  unfold send_telegram
  rw [if_neg (by decide : ¬ ("complete" : String) ≠ "complete")]
  dsimp only
  cases hcfg : (truthy (w.env "TELEGRAM_BOT_TOKEN") &&
      truthy (w.env "TELEGRAM_CHAT_ID"))
  · simp
  · cases hps : w.postSucceeds <;> simp [requests_post, hps, the_post]

/-- On a well-formed single argument, `main` runs the player on the path
looked up in the sound map, then the Telegram notifier, and returns 0. -/
theorem main_eq_of_event (w : World) (prog e : String)
    (he : e = "input" ∨ e = "complete") :
    main w prog [e] =
      (0, Trace.append
            (play_sound_file w
              (((sound_files (w.scriptDir ++ "/sounds")).lookup e).getD "")).2
            (send_telegram w e)) := by
  rcases he with rfl | rfl <;> rfl

/-- C1: for every well-formed invocation (exactly one argument, equal to
"input" or "complete"), `main` first invokes the player on the mapped
sound path, then the remote notifier for the event, and returns exit
status 0 — for every world, hence regardless of whether the file existed,
playback succeeded, or the remote notification was attempted or
succeeded. -/
theorem main_wellformed_plays_then_notifies (w : World) (prog e : String)
    (he : e = "input" ∨ e = "complete") :
    main w prog [e] =
      (0, Trace.append
            (play_sound_file w
              (((sound_files (w.scriptDir ++ "/sounds")).lookup e).getD "")).2
            (send_telegram w e)) :=
  main_eq_of_event w prog e he

/-- C1 witness: `main ["complete"]` at a world where the sound file is
missing, the remote notification is unconfigured and the POST would fail,
still returns exit status 0. -/
theorem main_wellformed_plays_then_notifies_witness :
    main failWorld "notify.py" ["complete"] =
      (0, Trace.append
            (play_sound_file failWorld
              (((sound_files (failWorld.scriptDir ++ "/sounds")).lookup
                  "complete").getD "")).2
            (send_telegram failWorld "complete")) :=
  main_wellformed_plays_then_notifies failWorld "notify.py" "complete" (Or.inr rfl)

/-- C2: every malformed invocation — argument count other than one, or an
unrecognized single argument — makes `main` print exactly the usage text
(whose first line contains the invocation name and the substring
"\x7binput|complete\x7d") to stderr and return exit status 1, with no
playback attempt, no wait, no environment read, and no outbound POST. -/
theorem main_malformed_usage (w : World) (prog : String) (args : List String)
    (h : args.length ≠ 1 ∨ (args.headD "" ≠ "input" ∧ args.headD "" ≠ "complete")) :
    main w prog args = (1, { stderr := usage_lines prog }) ∧
    ("Usage: " ++ prog ++ " {input|complete}") ∈ (main w prog args).2.stderr ∧
    str_contains ("Usage: " ++ prog ++ " {input|complete}") prog ∧
    str_contains ("Usage: " ++ prog ++ " {input|complete}") "{input|complete}" ∧
    (main w prog args).2.soundAttempts = [] ∧
    (main w prog args).2.plays = [] ∧
    (main w prog args).2.waits = 0 ∧
    (main w prog args).2.envReads = [] ∧
    (main w prog args).2.posts = [] ∧
    (main w prog args).2.stdout = [] := by
  have hm : main w prog args = (1, { stderr := usage_lines prog }) := by
    unfold main
    rw [if_pos h]
  rw [hm]
  refine ⟨rfl, ?_, ?_, ?_, rfl, rfl, rfl, rfl, rfl, rfl⟩
  · simp [usage_lines]
  · exact ⟨"Usage: ".data, " {input|complete}".data, rfl⟩
  · refine ⟨("Usage: " ++ prog ++ " ").data, [], ?_⟩
    simp only [string_data_append, List.append_assoc, List.append_nil]
    rfl

/-- C2 witness: the zero-argument invocation returns 1 with the usage
text on stderr. -/
theorem main_malformed_usage_witness :
    main sampleWorld "notify.py" [] = (1, { stderr := usage_lines "notify.py" }) :=
  (main_malformed_usage sampleWorld "notify.py" [] (Or.inl (by decide))).1

/-- A non-empty string read from the environment is truthy. -/
theorem truthy_some_of_ne (s : String) (h : s ≠ "") : truthy (some s) = true := by
  unfold truthy
  simp only [Bool.not_eq_true', ← Bool.not_eq_true, String.isEmpty_iff]
  exact h

/-- C3: on the "complete" event, when either environment variable is absent
or empty, `send_telegram` issues no POST and writes nothing; when both are
set non-empty it issues exactly the one POST to the fixed endpoint, whose
payload carries the chat identifier and a message containing the current
directory's base name and the `%H:%M:%S` timestamp; and in every world at
most one POST is issued. -/
theorem send_telegram_complete_requests (w : World) :
    ((truthy (w.env "TELEGRAM_BOT_TOKEN") &&
        truthy (w.env "TELEGRAM_CHAT_ID")) = false →
      send_telegram w "complete" =
        { envReads := ["TELEGRAM_BOT_TOKEN", "TELEGRAM_CHAT_ID"] }) ∧
    (∀ bot chat : String,
      w.env "TELEGRAM_BOT_TOKEN" = some bot → bot ≠ "" →
      w.env "TELEGRAM_CHAT_ID" = some chat → chat ≠ "" →
      (send_telegram w "complete").posts =
        [{ url := telegram_api_url bot, chatId := chat,
           text := telegram_message w, timeout := 5 }] ∧
      str_contains (telegram_message w) w.cwdName ∧
      str_contains (telegram_message w) (format_hms w.hour w.minute w.second)) ∧
    (send_telegram w "complete").posts.length ≤ 1 := by
  refine ⟨?_, ?_, ?_⟩
  · intro hcfg
    rw [send_telegram_complete_eq, if_pos hcfg]
  · intro bot chat hb hbne hc hcne
    have hcfg : (truthy (w.env "TELEGRAM_BOT_TOKEN") &&
        truthy (w.env "TELEGRAM_CHAT_ID")) = true := by
      rw [hb, hc, truthy_some_of_ne bot hbne, truthy_some_of_ne chat hcne]
      rfl
    refine ⟨?_, ?_, ?_⟩
    · rw [send_telegram_complete_eq, if_neg (by simp [hcfg])]
      simp [the_post, hb, hc]
    · refine ⟨("✓ Claude Code done in " ++ squote).data,
        (squote ++ " at " ++ format_hms w.hour w.minute w.second).data, ?_⟩
      simp only [telegram_message, string_data_append, List.append_assoc]
    · refine ⟨("✓ Claude Code done in " ++ squote ++ w.cwdName ++ squote
          ++ " at ").data, [], ?_⟩
      simp only [telegram_message, string_data_append, List.append_assoc,
        List.append_nil]
  · rw [send_telegram_complete_eq]
    cases hcfg : (truthy (w.env "TELEGRAM_BOT_TOKEN") &&
        truthy (w.env "TELEGRAM_CHAT_ID")) <;> simp

/-- C3 witness: at the sample world (both variables configured), exactly
the one expected POST is issued. -/
theorem send_telegram_complete_requests_witness :
    (send_telegram sampleWorld "complete").posts =
      [{ url := telegram_api_url "tok", chatId := "42",
         text := telegram_message sampleWorld, timeout := 5 }] :=
  ((send_telegram_complete_requests sampleWorld).2.1 "tok" "42" rfl
    (by decide) rfl (by decide)).1

/-- C4: when the event is "complete", both variables are configured and the
POST fails, the failure is swallowed: `send_telegram` writes nothing to
either stream, its whole effect trace is the same as when the POST
succeeds, playback is unaffected, and `main` still returns exit status 0. -/
theorem send_telegram_failure_swallowed (w : World) (prog sound : String)
    (hb : truthy (w.env "TELEGRAM_BOT_TOKEN") = true)
    (hc : truthy (w.env "TELEGRAM_CHAT_ID") = true)
    (hfail : w.postSucceeds = false) :
    (send_telegram w "complete").stderr = [] ∧
    (send_telegram w "complete").stdout = [] ∧
    send_telegram w "complete" =
      send_telegram { w with postSucceeds := true } "complete" ∧
    play_sound_file w sound =
      play_sound_file { w with postSucceeds := true } sound ∧
    (main w prog ["complete"]).1 = 0 := by
  refine ⟨(send_telegram_frame w "complete").2.1,
    (send_telegram_frame w "complete").1, ?_, rfl, rfl⟩
  rw [send_telegram_complete_eq, send_telegram_complete_eq]
  rfl

/-- A configured world whose HTTP POST raises. -/
def failPostWorld : World := { sampleWorld with postSucceeds := false }

/-- C4 witness: at a configured world with a failing POST, nothing reaches
stderr and `main` returns 0. -/
theorem send_telegram_failure_swallowed_witness :
    (send_telegram failPostWorld "complete").stderr = [] ∧
    (main failPostWorld "notify.py" ["complete"]).1 = 0 := by
  have h := send_telegram_failure_swallowed failPostWorld "notify.py" "x" rfl rfl rfl
  exact ⟨h.1, h.2.2.2.2⟩

/-- C5: when the sound path does not exist, `play_sound_file` returns
`false` and prints a warning to stderr that names the missing path. -/
theorem play_sound_file_missing (w : World) (p : String)
    (h : w.fileExists p = false) :
    play_sound_file w p =
      (false, { soundAttempts := [p],
                stderr := ["Warning: Sound file not found: " ++ p] }) ∧
    str_contains ("Warning: Sound file not found: " ++ p) p := by
  constructor
  · unfold play_sound_file
    rw [if_pos h]
  · exact ⟨"Warning: Sound file not found: ".data, [], by
      simp only [string_data_append, List.append_nil]⟩

/-- A world with no files on the filesystem. -/
def noFileWorld : World := { sampleWorld with fileExists := fun _ => false }

/-- C5 witness: a concrete missing path yields `false` plus the warning. -/
theorem play_sound_file_missing_witness :
    play_sound_file noFileWorld "/tmp/missing.ogg" =
      (false, { soundAttempts := ["/tmp/missing.ogg"],
                stderr := ["Warning: Sound file not found: " ++ "/tmp/missing.ogg"] }) :=
  (play_sound_file_missing noFileWorld "/tmp/missing.ogg" rfl).1

/-- Every error line printed by the `except` branch carries the fixed
failure marker. -/
theorem error_marker_contains (m : String) :
    str_contains ("Error playing sound: " ++ m) "Error playing sound" :=
  ⟨[], ": ".data ++ m.data, by
    simp only [string_data_append, List.nil_append, List.append_assoc]
    rfl⟩

/-- C6: any fault raised while decoding, playing, or waiting on an existing
file is caught: `play_sound_file` returns `false` and prints a single
stderr line carrying the fixed marker "Error playing sound"; as a total
function it propagates no fault. -/
theorem play_sound_file_fault_caught (w : World) (p : String)
    (hex : w.fileExists p = true)
    (hfault : (∃ e, w.decodeResult p = .error e) ∨
      w.playFault ≠ none ∨ w.waitFault ≠ none) :
    (play_sound_file w p).1 = false ∧
    ∃ m, (play_sound_file w p).2.stderr = ["Error playing sound: " ++ m] ∧
      str_contains ("Error playing sound: " ++ m) "Error playing sound" := by
  unfold play_sound_file
  rw [if_neg (by simp [hex])]
  cases hdr : w.decodeResult p with
  | error e =>
      exact ⟨rfl, e, rfl, error_marker_contains e⟩
  | ok dr =>
      obtain ⟨d, r⟩ := dr
      cases hpf : w.playFault with
      | some e => exact ⟨rfl, e, rfl, error_marker_contains e⟩
      | none =>
          cases hwf : w.waitFault with
          | some e => exact ⟨rfl, e, rfl, error_marker_contains e⟩
          | none =>
              rcases hfault with ⟨e, he⟩ | hne | hne
              · rw [hdr] at he
                cases he
              · exact absurd hpf hne
              · exact absurd hwf hne

/-- A world whose decoder raises on every file. -/
def decodeFaultWorld : World :=
  { sampleWorld with decodeResult := fun _ => .error "Failed to read file" }

/-- C6 witness: a concrete decode fault yields `false` without escaping. -/
theorem play_sound_file_fault_caught_witness :
    (play_sound_file decodeFaultWorld "/opt/hooks/sounds/complete.ogg").1 = false :=
  (play_sound_file_fault_caught decodeFaultWorld "/opt/hooks/sounds/complete.ogg"
    rfl (Or.inl ⟨"Failed to read file", rfl⟩)).1

/-- C7: on an existing file with a working decoder and backend,
`play_sound_file` returns `true`, `sd.play` receives exactly the decoded
sample buffer and sample rate, and `sd.wait` is called exactly once. -/
theorem play_sound_file_success (w : World) (p : String)
    (data : List Int) (rate : Nat)
    (hex : w.fileExists p = true)
    (hdec : w.decodeResult p = .ok (data, rate))
    (hpf : w.playFault = none) (hwf : w.waitFault = none) :
    play_sound_file w p =
      (true, { soundAttempts := [p], plays := [(data, rate)], waits := 1 }) := by
  unfold play_sound_file
  rw [if_neg (by simp [hex]), hdec, hpf, hwf]

/-- C7 witness: the sample world plays its decoded buffer and waits once. -/
theorem play_sound_file_success_witness :
    play_sound_file sampleWorld "/opt/hooks/sounds/input-needed.ogg" =
      (true, { soundAttempts := ["/opt/hooks/sounds/input-needed.ogg"],
               plays := [([1, 2], 44100)], waits := 1 }) :=
  play_sound_file_success sampleWorld "/opt/hooks/sounds/input-needed.ogg"
    [1, 2] 44100 rfl rfl rfl rfl

/-- Sequential traces concatenate their recorded sound paths. -/
theorem trace_append_soundAttempts (a b : Trace) :
    (Trace.append a b).soundAttempts = a.soundAttempts ++ b.soundAttempts := rfl

/-- Sequential traces concatenate their stdout output. -/
theorem trace_append_stdout (a b : Trace) :
    (Trace.append a b).stdout = a.stdout ++ b.stdout := rfl

/-- On a well-formed event, the only path handed to the player is the one
looked up in the sound map built from the script directory. -/
theorem main_soundAttempts (w : World) (prog e : String)
    (he : e = "input" ∨ e = "complete") :
    (main w prog [e]).2.soundAttempts =
      [((sound_files (w.scriptDir ++ "/sounds")).lookup e).getD ""] := by
  rw [main_eq_of_event w prog e he, trace_append_soundAttempts,
    (play_sound_file_frame w _).1, (send_telegram_frame w e).2.2.1]
  rfl

/-- C8: the sound mapping is the fixed two-entry map; "input" resolves
exactly to the path `<scriptDir>/sounds/input-needed.ogg` and "complete"
exactly to `<scriptDir>/sounds/complete.ogg`, both ending in the mapped
file name under `sounds/` and independent of the current working
directory. -/
theorem sound_mapping_fixed (w : World) (prog c : String) :
    (main w prog ["input"]).2.soundAttempts =
      [w.scriptDir ++ "/sounds" ++ "/input-needed.ogg"] ∧
    (main w prog ["complete"]).2.soundAttempts =
      [w.scriptDir ++ "/sounds" ++ "/complete.ogg"] ∧
    str_ends_with (w.scriptDir ++ "/sounds" ++ "/input-needed.ogg")
      "sounds/input-needed.ogg" ∧
    str_ends_with (w.scriptDir ++ "/sounds" ++ "/complete.ogg")
      "sounds/complete.ogg" ∧
    (main { w with cwdName := c } prog ["input"]).2.soundAttempts =
      (main w prog ["input"]).2.soundAttempts ∧
    (main { w with cwdName := c } prog ["complete"]).2.soundAttempts =
      (main w prog ["complete"]).2.soundAttempts ∧
    sound_files (w.scriptDir ++ "/sounds") =
      [("input", w.scriptDir ++ "/sounds" ++ "/input-needed.ogg"),
       ("complete", w.scriptDir ++ "/sounds" ++ "/complete.ogg")] := by
  have hi := main_soundAttempts w prog "input" (Or.inl rfl)
  have hco := main_soundAttempts w prog "complete" (Or.inr rfl)
  have hi2 := main_soundAttempts { w with cwdName := c } prog "input" (Or.inl rfl)
  have hco2 := main_soundAttempts { w with cwdName := c } prog "complete" (Or.inr rfl)
  refine ⟨?_, ?_, ?_, ?_, ?_, ?_, rfl⟩
  · rw [hi]
    rfl
  · rw [hco]
    rfl
  · refine ⟨(w.scriptDir ++ "/").data, ?_⟩
    simp only [string_data_append, List.append_assoc]
    rfl
  · refine ⟨(w.scriptDir ++ "/").data, ?_⟩
    simp only [string_data_append, List.append_assoc]
    rfl
  · rw [hi2, hi]
  · rw [hco2, hco]

/-- C9: on any event other than "complete", `send_telegram` is a complete
no-op: the empty trace — no environment read, no POST, no output. -/
theorem send_telegram_other_event_noop (w : World) (e : String)
    (h : e ≠ "complete") :
    send_telegram w e = {} := by
  unfold send_telegram
  rw [if_pos h]

/-- C9 witness: the "input" event produces the empty trace. -/
theorem send_telegram_other_event_noop_witness :
    send_telegram sampleWorld "input" = {} :=
  send_telegram_other_event_noop sampleWorld "input" (by decide)

/-- C10: on every execution path — usage error, missing file, playback
fault, success — the program writes nothing to standard output: all prints
target stderr. -/
theorem never_writes_stdout (w : World) (prog p e : String)
    (args : List String) :
    (main w prog args).2.stdout = [] ∧
    (play_sound_file w p).2.stdout = [] ∧
    (send_telegram w e).stdout = [] := by
  refine ⟨?_, (play_sound_file_frame w p).2.1, (send_telegram_frame w e).1⟩
  unfold main
  split
  · rfl
  · dsimp only
    rw [trace_append_stdout, (play_sound_file_frame w _).2.1,
      (send_telegram_frame w _).1]
    rfl

end notify
